import Mathlib

/-!
Shallow embedding of the larascript-mail package (TypeScript):
`MailService` (src/mail/services/MailService.ts), `BaseMailAdapter`
(src/mail/base/BaseMailAdapter.ts) and `LocalMailDriver`
(src/mail/adapters/LocalMailDriver.ts), together with the pieces of the
data model they act on.  JavaScript objects used as data bags are embedded
as association lists of string keys and `JValue` values; the JS object
spread `{...d, k: v}` is `spreadSet d k v`; `new Date()` is threaded in as
an explicit `now : Nat` timestamp; `async` methods that may throw are
functions into `Except`; the logger is embedded by returning the list of
log calls that were made.
-/

namespace LarascriptMail

/-- Values stored in the loosely typed data bags (template data, locale
configuration, driver options). -/
inductive JValue where
  | str : String → JValue
  | num : Int → JValue
  | boolean : Bool → JValue
  | date : Nat → JValue
  | obj : List (String × JValue) → JValue
deriving Repr

/-- A JavaScript object used as a record of string keys: an association
list, first occurrence of a key wins on lookup. -/
abbrev DataObj := List (String × JValue)

/-- Lookup of a key in a data object (property access `d[k]`). -/
def getEntry (d : DataObj) (k : String) : Option JValue :=
  (d.find? (fun p => p.1 == k)).map (fun p => p.2)

/-- JS object spread `{...d, k: v}`: if `k` is already a key of `d` its
value is replaced in place, otherwise the pair is appended. -/
def spreadSet (d : DataObj) (k : String) (v : JValue) : DataObj :=
  if d.any (fun p => p.1 == k) then
    d.map (fun p => if p.1 == k then (k, v) else p)
  else
    d ++ [(k, v)]

/-- Modelled from the spec: the mail body (src/mail/interfaces/data.ts is
not among the sources) is a tagged union: a plain string, or a template
descriptor `{view, data?}` whose `data` property may be absent. -/
inductive MailBody where
  | str : String → MailBody
  | template : String → Option DataObj → MailBody

/-- Modelled from the spec: the recipient field of a mail is a single
address or an ordered list of addresses. -/
inductive MailTo where
  | single : String → MailTo
  | many : List String → MailTo
deriving Repr, DecidableEq

/-- Modelled from the spec: an attachment is a name, content and an
optional content type. -/
structure Attachment where
  name : String
  content : String
  contentType : Option String
deriving Repr, DecidableEq

/-- Modelled from the spec: the `Mail` data holder (src/mail/data/Mail.ts
is not among the sources): recipients, sender, subject, body,
attachments.  The free-form per-send options play no role in the claims
and are omitted. -/
structure Mail where
  toAddr : MailTo
  fromAddr : String
  subject : String
  body : MailBody
  attachments : List Attachment

/-- Getter `mail.getBody()`. -/
def Mail.getBody (m : Mail) : MailBody := m.body

/-- Setter `mail.setBody(b)`: in JS this mutates the mail object in
place; here it produces the post-mutation state of that object. -/
def Mail.setBody (m : Mail) (b : MailBody) : Mail := { m with body := b }

/-- Getter `mail.getTo()`. -/
def Mail.getTo (m : Mail) : MailTo := m.toAddr

/-- Getter `mail.getFrom()`. -/
def Mail.getFrom (m : Mail) : String := m.fromAddr

/-- Getter `mail.getSubject()`. -/
def Mail.getSubject (m : Mail) : String := m.subject

/-- Getter `mail.getAttachments()`. -/
def Mail.getAttachments (m : Mail) : List Attachment := m.attachments

/-- Observation: the `view` component of a body, when template shaped. -/
def MailBody.viewOf : MailBody → Option String
  | .str _ => none
  | .template v _ => some v

/-- Observation: lookup of key `k` in the template data of a body;
`none` for a string body or when the data property is absent. -/
def MailBody.dataEntry (b : MailBody) (k : String) : Option JValue :=
  match b with
  | .str _ => none
  | .template _ none => none
  | .template _ (some d) => getEntry d k

/-- The errors thrown along the send path: an unregistered driver name
(from the adapter registry lookup), or an error thrown by the injected
view-render dependency, carried verbatim. -/
inductive MailError where
  | adapterNotFound : String → MailError
  | renderFail : String → MailError
deriving Repr, DecidableEq

/-- The injected view-render dependency `view.render({view, data})`
(external, opaque): any function from a view name and data bag to either
a rendered string or a thrown error. -/
def RenderFn := String → DataObj → Except String String

/-- BaseMailAdapter.generateBodyString (src/mail/base/BaseMailAdapter.ts):
a string body is returned unchanged; a template body `{view, data = {}}`
is rendered through the injected view-render dependency, whose failure
propagates uncaught. -/
def BaseMailAdapter.generateBodyString (render : RenderFn) (m : Mail) :
    Except String String :=
  match m.getBody with
  | .str s => .ok s
  | .template view data => render view (data.getD [])

/-- The structured record `{to, from, subject, body, attachments}` that
LocalMailDriver.send serializes with `JSON.stringify` and logs. -/
structure EmailLogRecord where
  toAddr : MailTo
  fromAddr : String
  subject : String
  body : String
  attachments : List Attachment
deriving Repr, DecidableEq

/-- A call made to the injected logger: `logger.info("Email", record)`
from the local driver, or `logger.error(err)` from MailService.send's
catch block. -/
inductive LogEntry where
  | info : String → EmailLogRecord → LogEntry
  | error : MailError → LogEntry
deriving Repr, DecidableEq

/-- Whether a log entry went through the logger's error path. -/
def LogEntry.isError : LogEntry → Bool
  | .error _ => true
  | .info _ _ => false

/-- LocalMailDriver.getOptions (src/mail/adapters/LocalMailDriver.ts):
`return {} as T` — the empty object, whatever the constructor received. -/
def LocalMailDriver.getOptions : JValue := JValue.obj []

/-- LocalMailDriver.send: resolves the body through
`generateBodyString` (a render failure propagates before anything is
logged) and logs one structured info record; it never fails otherwise. -/
def LocalMailDriver.send (render : RenderFn) (m : Mail) :
    Except MailError (List LogEntry) :=
  match BaseMailAdapter.generateBodyString render m with
  | .error e => .error (.renderFail e)
  | .ok bodyStr =>
      .ok [LogEntry.info "Email"
        { toAddr := m.getTo
          fromAddr := m.getFrom
          subject := m.getSubject
          body := bodyStr
          attachments := m.getAttachments }]

/-- The driver constructors present in the sources: only
LocalMailDriver (the Nodemailer and Resend driver files are not among
the sources). -/
inductive MailAdapterConstructor where
  | localMailDriver
deriving Repr, DecidableEq

/-- An adapter instance as it sits in the registry: which constructor
built it and the options value passed to that constructor (the local
driver's constructor discards its `_options` argument, but the
construction record keeps what was passed). -/
structure AdapterInstance where
  ctor : MailAdapterConstructor
  ctorOptions : DataObj

/-- Adapter construction `new adapterConstructor(options)`. -/
def mkAdapter (c : MailAdapterConstructor) (options : DataObj) :
    AdapterInstance :=
  { ctor := c, ctorOptions := options }

/-- Dispatch of `adapter.getOptions()`. -/
def AdapterInstance.getOptions (a : AdapterInstance) : JValue :=
  match a.ctor with
  | .localMailDriver => LocalMailDriver.getOptions

/-- Dispatch of `adapter.send(mail)`. -/
def AdapterInstance.send (a : AdapterInstance) (render : RenderFn)
    (m : Mail) : Except MailError (List LogEntry) :=
  match a.ctor with
  | .localMailDriver => LocalMailDriver.send render m

/-- One entry of `IMailConfig.drivers`: a name, a driver constructor and
an options bag. -/
structure MailDriverConfigItem where
  name : String
  driver : MailAdapterConstructor
  options : DataObj

/-- The mail configuration: a default driver name and the ordered list
of driver entries. -/
structure IMailConfig where
  defaultName : String
  drivers : List MailDriverConfigItem

/-- The adapter registry: named adapter instances. -/
abbrev Registry := List (String × AdapterInstance)

/-- Names registered in a registry. -/
def regKeys (r : Registry) : List String := r.map Prod.fst

/-- Modelled from the spec: `addAdapterOnce` of the external
larascript-core `BaseAdapter` registry — registration under an already
registered name is ignored, not an overwrite. -/
def addAdapterOnce (r : Registry) (name : String) (a : AdapterInstance) :
    Registry :=
  if r.any (fun p => p.1 == name) then r else r ++ [(name, a)]

/-- Modelled from the spec: `getAdapter` of the external larascript-core
`BaseAdapter` registry — keyed lookup that fails on an unregistered
name. -/
def getAdapter (r : Registry) (name : String) :
    Except MailError AdapterInstance :=
  match r.find? (fun p => p.1 == name) with
  | some p => .ok p.2
  | none => .error (.adapterNotFound name)

/-- The state held by a MailService instance: the constructor arguments
`mailConfig` and `localesConfig`, plus the adapter registry of the
inherited BaseAdapter (empty until `boot`). -/
structure MailServiceState where
  mailConfig : IMailConfig
  localesConfig : DataObj
  adapters : Registry

/-- The registry fold performed by MailService.boot over the configured
driver entries. -/
def bootFold (r : Registry) (l : List MailDriverConfigItem) : Registry :=
  l.foldl (fun acc item =>
    addAdapterOnce acc item.name (mkAdapter item.driver item.options)) r

/-- MailService.boot: constructs each configured adapter with its options
and registers it under its name via `addAdapterOnce`. -/
def MailService.boot (σ : MailServiceState) : MailServiceState :=
  { σ with adapters := bootFold σ.adapters σ.mailConfig.drivers }

/-- MailService.getDriver: lookup by name in the registry. -/
def MailService.getDriver (σ : MailServiceState) (name : String) :
    Except MailError AdapterInstance :=
  getAdapter σ.adapters name

/-- MailService.getDefaultDriver: lookup of the configured default name. -/
def MailService.getDefaultDriver (σ : MailServiceState) :
    Except MailError AdapterInstance :=
  getAdapter σ.adapters σ.mailConfig.defaultName

/-- MailService.addLocalesData: when the body is template shaped
(`typeof mailBody === "object"`), builds a fresh
`locales = {...this.localesConfig, date: new Date()}` object and calls
`mail.setBody({...mailBody, data: {...(mailBody?.data ?? []), locales}})`;
a string body is returned untouched.  Spreading the `[]` fallback for an
absent `data` property contributes no entries. -/
def MailService.addLocalesData (σ : MailServiceState) (now : Nat)
    (mail : Mail) : Mail :=
  match mail.getBody with
  | .str _ => mail
  | .template view data =>
      let locales : DataObj := spreadSet σ.localesConfig "date" (.date now)
      mail.setBody (.template view
        (some (spreadSet (data.getD []) "locales" (.obj locales))))

/-- Everything observable about one `MailService.send` call: the settled
promise, the calls made to the logger, the state of the caller's (shared,
mutated in place) `Mail` object after the call, and the state of the
service's own fields after the call. -/
structure SendOutcome where
  result : Except MailError Unit
  log : List LogEntry
  callerMail : Mail
  state : MailServiceState

/-- MailService.send: merges locale data into the mail (mutating the
caller's object), resolves the adapter by name, delegates to its `send`;
any error thrown by a step is passed to `this.logger.error` and
re-thrown. -/
def MailService.send (σ : MailServiceState) (render : RenderFn)
    (now : Nat) (mail : Mail) (driver : String) : SendOutcome :=
  let mail1 := MailService.addLocalesData σ now mail
  match getAdapter σ.adapters driver with
  | .error e =>
      { result := .error e, log := [.error e], callerMail := mail1, state := σ }
  | .ok adapter =>
      match adapter.send render mail1 with
      | .error e =>
          { result := .error e, log := [.error e], callerMail := mail1,
            state := σ }
      | .ok logs =>
          { result := .ok (), log := logs, callerMail := mail1, state := σ }

/-- MailService.send with the driver argument defaulted to
`this.mailConfig.default`. -/
def MailService.sendDefault (σ : MailServiceState) (render : RenderFn)
    (now : Nat) (mail : Mail) : SendOutcome :=
  MailService.send σ render now mail σ.mailConfig.defaultName

/-! Concrete sample values used to instantiate the theorems below. -/

/-- A render dependency that always succeeds. -/
def renderOk : RenderFn := fun _ _ => Except.ok "rendered"

/-- A render dependency that always throws. -/
def renderBoom : RenderFn := fun _ _ => Except.error "boom"

/-- A sample mail with a plain string body. -/
def mailString : Mail :=
  { toAddr := .single "a@b.com", fromAddr := "c@d.com", subject := "Hi",
    body := .str "Hello", attachments := [] }

/-- A sample mail with a template body `{view: "x", data: {a: 1}}`. -/
def mailTemplate : Mail :=
  { toAddr := .single "a@b.com", fromAddr := "c@d.com", subject := "Hi",
    body := .template "x" (some [("a", JValue.num 1)]), attachments := [] }

/-- A sample mail with a template body whose data is absent. -/
def mailTemplateNoData : Mail :=
  { toAddr := .single "a@b.com", fromAddr := "c@d.com", subject := "Hi",
    body := .template "x" none, attachments := [] }

/-- A sample mail whose template data already holds a `locales` key. -/
def mailTemplateLocales : Mail :=
  { toAddr := .single "a@b.com", fromAddr := "c@d.com", subject := "Hi",
    body := .template "x" (some [("locales", JValue.num 5)]),
    attachments := [] }

/-- The configuration entry registering the local driver as "local". -/
def localConfigItem : MailDriverConfigItem :=
  { name := "local", driver := .localMailDriver, options := [] }

/-- A service as constructed (not yet booted): empty registry. -/
def emptyService : MailServiceState :=
  { mailConfig := { defaultName := "local", drivers := [localConfigItem] },
    localesConfig := [], adapters := [] }

/-! Helper lemmas about keyed association lists. -/

theorem keyAny_iff_mem {α : Type} (l : List (String × α)) (k : String) :
    l.any (fun p => p.1 == k) = true ↔ k ∈ l.map Prod.fst := by
  simp [List.any_eq_true, List.mem_map, beq_iff_eq]

theorem keyFind_eq_none {α : Type} (l : List (String × α)) (k : String)
    (h : k ∉ l.map Prod.fst) : l.find? (fun p => p.1 == k) = none := by
  rw [List.find?_eq_none]
  intro p hp hbeq
  exact h (List.mem_map.mpr ⟨p, hp, by simpa using hbeq⟩)

theorem getEntry_nil (k : String) : getEntry [] k = none := rfl

theorem getEntry_cons_pos (p : String × JValue) (tl : DataObj) (k : String)
    (h : (p.1 == k) = true) : getEntry (p :: tl) k = some p.2 := by
  unfold getEntry
  rw [List.find?_cons_of_pos (p := fun q => q.1 == k) tl h]
  rfl

theorem getEntry_cons_neg (p : String × JValue) (tl : DataObj) (k : String)
    (h : (p.1 == k) = false) : getEntry (p :: tl) k = getEntry tl k := by
  unfold getEntry
  rw [List.find?_cons_of_neg (p := fun q => q.1 == k) tl (by simp [h])]

theorem getEntry_mapSet_self (d : DataObj) (k : String) (v : JValue)
    (h : d.any (fun p => p.1 == k) = true) :
    getEntry (d.map (fun p => if p.1 == k then (k, v) else p)) k = some v := by
  induction d with
  | nil => simp at h
  | cons p tl ih =>
    rw [List.map_cons]
    by_cases hp : (p.1 == k) = true
    · have he : (if (p.1 == k) = true then (k, v) else p) = (k, v) := if_pos hp
      rw [he, getEntry_cons_pos _ _ _ (by simp)]
    · have he : (if (p.1 == k) = true then (k, v) else p) = p := if_neg hp
      rw [he, getEntry_cons_neg _ _ _ (by simpa using hp)]
      apply ih
      have h2 : (p.1 == k) = true ∨ tl.any (fun q => q.1 == k) = true := by
        simpa [List.any_cons] using h
      rcases h2 with h1 | h1
      · exact absurd h1 hp
      · exact h1

theorem getEntry_mapSet_ne (d : DataObj) (k k' : String) (v : JValue)
    (h : k' ≠ k) :
    getEntry (d.map (fun p => if p.1 == k then (k, v) else p)) k' =
      getEntry d k' := by
  induction d with
  | nil => rfl
  | cons p tl ih =>
    rw [List.map_cons]
    by_cases hp : (p.1 == k) = true
    · have he : (if (p.1 == k) = true then (k, v) else p) = (k, v) := if_pos hp
      have hk' : ((k, v).1 == k') = false := by simpa using (Ne.symm h)
      have hp' : (p.1 == k') = false := by
        have : p.1 = k := by simpa using hp
        rw [this]; simpa using (Ne.symm h)
      rw [he, getEntry_cons_neg _ _ _ hk', getEntry_cons_neg _ _ _ hp', ih]
    · have he : (if (p.1 == k) = true then (k, v) else p) = p := if_neg hp
      by_cases hq : (p.1 == k') = true
      · rw [he, getEntry_cons_pos _ _ _ hq, getEntry_cons_pos _ _ _ hq]
      · rw [he, getEntry_cons_neg _ _ _ (by simpa using hq),
          getEntry_cons_neg _ _ _ (by simpa using hq), ih]

theorem getEntry_spreadSet_self (d : DataObj) (k : String) (v : JValue) :
    getEntry (spreadSet d k v) k = some v := by
  unfold spreadSet
  by_cases h : d.any (fun p => p.1 == k) = true
  · rw [if_pos h]
    exact getEntry_mapSet_self d k v h
  · rw [if_neg h]
    unfold getEntry
    rw [List.find?_append, keyFind_eq_none d k
      (fun hmem => h ((keyAny_iff_mem d k).mpr hmem))]
    simp [List.find?]

theorem getEntry_spreadSet_ne (d : DataObj) (k k' : String) (v : JValue)
    (h : k' ≠ k) : getEntry (spreadSet d k v) k' = getEntry d k' := by
  unfold spreadSet
  by_cases hc : d.any (fun p => p.1 == k) = true
  · rw [if_pos hc]
    exact getEntry_mapSet_ne d k k' v h
  · rw [if_neg hc]
    unfold getEntry
    rw [List.find?_append]
    have h1 : ((k, v).1 == k') = false := by simpa using (Ne.symm h)
    simp [List.find?, h1]

/-! Helper lemmas about the adapter registry. -/

theorem keyFind_isSome {α : Type} (l : List (String × α)) (k : String)
    (h : k ∈ l.map Prod.fst) : (l.find? (fun p => p.1 == k)).isSome := by
  induction l with
  | nil => simp at h
  | cons p tl ih =>
    by_cases hp : (p.1 == k) = true
    · rw [List.find?_cons_of_pos (p := fun q => q.1 == k) tl hp]
      rfl
    · rw [List.find?_cons_of_neg (p := fun q => q.1 == k) tl (by simp_all)]
      apply ih
      rcases List.mem_map.mp h with ⟨q, hq, hqk⟩
      rcases List.mem_cons.mp hq with rfl | hq'
      · exact absurd (by simpa using hqk) hp
      · exact List.mem_map.mpr ⟨q, hq', hqk⟩

theorem addAdapterOnce_of_mem (r : Registry) (n : String)
    (a : AdapterInstance) (h : n ∈ regKeys r) : addAdapterOnce r n a = r := by
  unfold addAdapterOnce
  rw [if_pos ((keyAny_iff_mem r n).mpr h)]

theorem addAdapterOnce_of_not_mem (r : Registry) (n : String)
    (a : AdapterInstance) (h : n ∉ regKeys r) :
    addAdapterOnce r n a = r ++ [(n, a)] := by
  unfold addAdapterOnce
  rw [if_neg (fun hc => h ((keyAny_iff_mem r n).mp hc))]

theorem mem_keys_addAdapterOnce (r : Registry) (n : String)
    (a : AdapterInstance) (k : String) (h : k ∈ regKeys r) :
    k ∈ regKeys (addAdapterOnce r n a) := by
  unfold addAdapterOnce
  by_cases hc : r.any (fun p => p.1 == n) = true
  · rw [if_pos hc]
    exact h
  · rw [if_neg hc]
    unfold regKeys at h ⊢
    rw [List.map_append]
    exact List.mem_append_left _ h

theorem self_mem_keys_addAdapterOnce (r : Registry) (n : String)
    (a : AdapterInstance) : n ∈ regKeys (addAdapterOnce r n a) := by
  unfold addAdapterOnce
  by_cases hc : r.any (fun p => p.1 == n) = true
  · rw [if_pos hc]
    exact (keyAny_iff_mem r n).mp hc
  · rw [if_neg hc]
    unfold regKeys
    rw [List.map_append]
    exact List.mem_append_right _ (by simp)

theorem mem_keys_of_addAdapterOnce (r : Registry) (n : String)
    (a : AdapterInstance) (k : String)
    (h : k ∈ regKeys (addAdapterOnce r n a)) : k ∈ regKeys r ∨ k = n := by
  unfold addAdapterOnce at h
  by_cases hc : r.any (fun p => p.1 == n) = true
  · rw [if_pos hc] at h
    exact Or.inl h
  · rw [if_neg hc] at h
    unfold regKeys at h
    rw [List.map_append] at h
    rcases List.mem_append.mp h with h' | h'
    · exact Or.inl h'
    · right
      simpa using h'

theorem mem_keys_bootFold (l : List MailDriverConfigItem) (r : Registry)
    (k : String) (h : k ∈ regKeys r) : k ∈ regKeys (bootFold r l) := by
  induction l generalizing r with
  | nil => exact h
  | cons hd tl ih => exact ih _ (mem_keys_addAdapterOnce _ _ _ _ h)

theorem item_mem_keys_bootFold (l : List MailDriverConfigItem)
    (r : Registry) (item : MailDriverConfigItem) (h : item ∈ l) :
    item.name ∈ regKeys (bootFold r l) := by
  induction l generalizing r with
  | nil => cases h
  | cons hd tl ih =>
    rcases List.mem_cons.mp h with rfl | h'
    · exact mem_keys_bootFold tl _ _ (self_mem_keys_addAdapterOnce r _ _)
    · exact ih _ h'

theorem bootFold_noop (l : List MailDriverConfigItem) (r : Registry)
    (h : ∀ item ∈ l, item.name ∈ regKeys r) : bootFold r l = r := by
  induction l with
  | nil => rfl
  | cons hd tl ih =>
    have h1 : addAdapterOnce r hd.name (mkAdapter hd.driver hd.options) = r :=
      addAdapterOnce_of_mem _ _ _ (h hd (List.mem_cons_self hd tl))
    have h2 : bootFold r (hd :: tl) =
        bootFold (addAdapterOnce r hd.name (mkAdapter hd.driver hd.options)) tl :=
      rfl
    rw [h2, h1]
    exact ih (fun i hi => h i (List.mem_cons_of_mem hd hi))

theorem getAdapter_eq_error (r : Registry) (name : String)
    (h : name ∉ regKeys r) :
    getAdapter r name = .error (.adapterNotFound name) := by
  unfold getAdapter
  rw [keyFind_eq_none r name h]

theorem getAdapter_addAdapterOnce_of_mem (r : Registry) (n : String)
    (a : AdapterInstance) (name : String) (h : name ∈ regKeys r) :
    getAdapter (addAdapterOnce r n a) name = getAdapter r name := by
  unfold addAdapterOnce
  by_cases hc : r.any (fun p => p.1 == n) = true
  · rw [if_pos hc]
  · rw [if_neg hc]
    unfold getAdapter
    rw [List.find?_append]
    rcases Option.isSome_iff_exists.mp (keyFind_isSome r name h) with ⟨p, hp⟩
    rw [hp]
    rfl

theorem getAdapter_bootFold_of_mem (l : List MailDriverConfigItem)
    (r : Registry) (name : String) (h : name ∈ regKeys r) :
    getAdapter (bootFold r l) name = getAdapter r name := by
  induction l generalizing r with
  | nil => rfl
  | cons hd tl ih =>
    have h2 : bootFold r (hd :: tl) =
        bootFold (addAdapterOnce r hd.name (mkAdapter hd.driver hd.options)) tl :=
      rfl
    rw [h2, ih _ (mem_keys_addAdapterOnce _ _ _ _ h),
      getAdapter_addAdapterOnce_of_mem _ _ _ _ h]

theorem getAdapter_bootFold_first (l : List MailDriverConfigItem)
    (r : Registry) (item : MailDriverConfigItem) (hmem : item ∈ l)
    (hnodup : (l.map MailDriverConfigItem.name).Nodup)
    (hr : item.name ∉ regKeys r) :
    getAdapter (bootFold r l) item.name =
      .ok (mkAdapter item.driver item.options) := by
  induction l generalizing r with
  | nil => cases hmem
  | cons hd tl ih =>
    have h2 : bootFold r (hd :: tl) =
        bootFold (addAdapterOnce r hd.name (mkAdapter hd.driver hd.options)) tl :=
      rfl
    rcases List.mem_cons.mp hmem with rfl | hmem'
    · rw [h2, addAdapterOnce_of_not_mem r _ _ hr,
        getAdapter_bootFold_of_mem tl _ _ (by
          unfold regKeys
          rw [List.map_append]
          exact List.mem_append_right _ (by simp))]
      unfold getAdapter
      rw [List.find?_append, keyFind_eq_none r item.name hr]
      simp [List.find?]
    · have hne : item.name ≠ hd.name := by
        intro heq
        have hhd : hd.name ∉ tl.map MailDriverConfigItem.name :=
          (List.nodup_cons.mp hnodup).1
        exact hhd (heq ▸ List.mem_map.mpr ⟨item, hmem', rfl⟩)
      have hr' : item.name ∉
          regKeys (addAdapterOnce r hd.name (mkAdapter hd.driver hd.options)) := by
        intro hin
        rcases mem_keys_of_addAdapterOnce _ _ _ _ hin with h' | h'
        · exact hr h'
        · exact hne h'
      rw [h2]
      exact ih _ hmem' (List.nodup_cons.mp hnodup).2 hr'

theorem regKeys_addAdapterOnce_nodup (r : Registry) (n : String)
    (a : AdapterInstance) (h : (regKeys r).Nodup) :
    (regKeys (addAdapterOnce r n a)).Nodup := by
  by_cases hc : n ∈ regKeys r
  · rw [addAdapterOnce_of_mem r n a hc]
    exact h
  · rw [addAdapterOnce_of_not_mem r n a hc]
    unfold regKeys at h ⊢
    rw [List.map_append]
    rw [List.nodup_append]
    refine ⟨h, List.nodup_singleton _, ?_⟩
    intro x hx hx'
    rcases List.mem_singleton.mp (by simpa using hx') with rfl
    exact hc hx

theorem regKeys_bootFold_nodup (l : List MailDriverConfigItem) (r : Registry)
    (h : (regKeys r).Nodup) : (regKeys (bootFold r l)).Nodup := by
  induction l generalizing r with
  | nil => exact h
  | cons hd tl ih => exact ih _ (regKeys_addAdapterOnce_nodup _ _ _ h)

/-! Helper lemmas about the merge step, body generation and send. -/

theorem generateBodyString_of_str (render : RenderFn) (m : Mail) (s : String)
    (h : m.getBody = .str s) :
    BaseMailAdapter.generateBodyString render m = .ok s := by
  unfold BaseMailAdapter.generateBodyString
  rw [h]

theorem generateBodyString_of_template (render : RenderFn) (m : Mail)
    (view : String) (d : Option DataObj) (h : m.getBody = .template view d) :
    BaseMailAdapter.generateBodyString render m = render view (d.getD []) := by
  unfold BaseMailAdapter.generateBodyString
  rw [h]

theorem addLocalesData_of_str (σ : MailServiceState) (now : Nat) (mail : Mail)
    (s : String) (h : mail.getBody = .str s) :
    MailService.addLocalesData σ now mail = mail := by
  unfold MailService.addLocalesData
  rw [h]

theorem addLocalesData_of_template (σ : MailServiceState) (now : Nat)
    (mail : Mail) (view : String) (d : Option DataObj)
    (h : mail.getBody = .template view d) :
    MailService.addLocalesData σ now mail =
      mail.setBody (.template view (some (spreadSet (d.getD []) "locales"
        (JValue.obj (spreadSet σ.localesConfig "date" (JValue.date now)))))) := by
  unfold MailService.addLocalesData
  rw [h]

theorem getBody_setBody (m : Mail) (b : MailBody) : (m.setBody b).getBody = b :=
  rfl

theorem adapterSend_ok_no_error_log (a : AdapterInstance) (render : RenderFn)
    (m : Mail) (logs : List LogEntry) (h : a.send render m = .ok logs) :
    logs.filter LogEntry.isError = [] := by
  obtain ⟨c, opts⟩ := a
  cases c
  unfold AdapterInstance.send LocalMailDriver.send at h
  cases hg : BaseMailAdapter.generateBodyString render m with
  | error e => rw [hg] at h; cases h
  | ok s =>
    rw [hg] at h
    cases h
    rfl

theorem send_eq_of_getAdapter_error (σ : MailServiceState) (render : RenderFn)
    (now : Nat) (mail : Mail) (driver : String) (e : MailError)
    (h : getAdapter σ.adapters driver = .error e) :
    MailService.send σ render now mail driver =
      { result := .error e, log := [.error e],
        callerMail := MailService.addLocalesData σ now mail, state := σ } := by
  simp only [MailService.send, h]

theorem send_eq_of_adapterSend_error (σ : MailServiceState)
    (render : RenderFn) (now : Nat) (mail : Mail) (driver : String)
    (a : AdapterInstance) (e : MailError)
    (ha : getAdapter σ.adapters driver = .ok a)
    (hs : a.send render (MailService.addLocalesData σ now mail) = .error e) :
    MailService.send σ render now mail driver =
      { result := .error e, log := [.error e],
        callerMail := MailService.addLocalesData σ now mail, state := σ } := by
  simp only [MailService.send, ha, hs]

theorem send_eq_of_adapterSend_ok (σ : MailServiceState) (render : RenderFn)
    (now : Nat) (mail : Mail) (driver : String) (a : AdapterInstance)
    (logs : List LogEntry)
    (ha : getAdapter σ.adapters driver = .ok a)
    (hs : a.send render (MailService.addLocalesData σ now mail) = .ok logs) :
    MailService.send σ render now mail driver =
      { result := .ok (), log := logs,
        callerMail := MailService.addLocalesData σ now mail, state := σ } := by
  simp only [MailService.send, ha, hs]

theorem send_callerMail (σ : MailServiceState) (render : RenderFn) (now : Nat)
    (mail : Mail) (driver : String) :
    (MailService.send σ render now mail driver).callerMail =
      MailService.addLocalesData σ now mail := by
  cases ha : getAdapter σ.adapters driver with
  | error e => rw [send_eq_of_getAdapter_error σ render now mail driver e ha]
  | ok a =>
    cases hs : a.send render (MailService.addLocalesData σ now mail) with
    | error e =>
      rw [send_eq_of_adapterSend_error σ render now mail driver a e ha hs]
    | ok logs =>
      rw [send_eq_of_adapterSend_ok σ render now mail driver a logs ha hs]

theorem dataEntry_template (v : String) (d : DataObj) (k : String) :
    (MailBody.template v (some d)).dataEntry k = getEntry d k := rfl

/-! Claim theorems. -/

/-- C1: for every mail and driver name, if any step of `MailService.send`
throws (adapter lookup or the adapter's send, including a render
failure), then the logger's error path is invoked exactly once, with that
very error, and the returned promise rejects with the same error; a
successful send makes no error-path call, so no error is swallowed and
nothing is retried. -/
theorem send_failure_logged_once_and_rethrown (σ : MailServiceState)
    (render : RenderFn) (now : Nat) (mail : Mail) (driver : String) :
    (∀ e : MailError,
      (MailService.send σ render now mail driver).result = .error e →
      (MailService.send σ render now mail driver).log.filter LogEntry.isError
        = [LogEntry.error e]) ∧
    ((MailService.send σ render now mail driver).result = .ok () →
      (MailService.send σ render now mail driver).log.filter LogEntry.isError
        = []) := by
  cases ha : getAdapter σ.adapters driver with
  | error e0 =>
    rw [send_eq_of_getAdapter_error σ render now mail driver e0 ha]
    constructor
    · intro e he
      have h1 : Except.error (ε := MailError) (α := Unit) e0 = Except.error e :=
        he
      injection h1 with h2
      subst h2
      rfl
    · intro h
      exact Except.noConfusion h
  | ok a =>
    cases hs : a.send render (MailService.addLocalesData σ now mail) with
    | error e0 =>
      rw [send_eq_of_adapterSend_error σ render now mail driver a e0 ha hs]
      constructor
      · intro e he
        have h1 : Except.error (ε := MailError) (α := Unit) e0 =
            Except.error e := he
        injection h1 with h2
        subst h2
        rfl
      · intro h
        exact Except.noConfusion h
    | ok logs =>
      rw [send_eq_of_adapterSend_ok σ render now mail driver a logs ha hs]
      constructor
      · intro e he
        exact Except.noConfusion he
      · intro _
        exact adapterSend_ok_no_error_log a render
          (MailService.addLocalesData σ now mail) logs hs

/-- Witness for C1: sending before boot on a concrete service fails with
an unresolved-driver error and that error is logged exactly once. -/
theorem send_failure_logged_once_and_rethrown_witness :
    (MailService.send emptyService renderOk 0 mailString "local").result
      = .error (.adapterNotFound "local") ∧
    (MailService.send emptyService renderOk 0 mailString "local").log.filter
      LogEntry.isError = [LogEntry.error (.adapterNotFound "local")] :=
  ⟨rfl, (send_failure_logged_once_and_rethrown emptyService renderOk 0
    mailString "local").1 (.adapterNotFound "local") rfl⟩

/-- C3: `generateBodyString` returns a plain string body unchanged, and
for a template body `{view, data}` returns exactly what the injected
view-render dependency produces on that view and data (absent data
defaulting to the empty object), so a render failure propagates
uncaught. -/
theorem generateBodyString_spec (render : RenderFn) (m : Mail) :
    (∀ s, m.getBody = .str s →
      BaseMailAdapter.generateBodyString render m = .ok s) ∧
    (∀ view d, m.getBody = .template view d →
      BaseMailAdapter.generateBodyString render m = render view (d.getD [])) :=
  ⟨fun s h => generateBodyString_of_str render m s h,
   fun view d h => generateBodyString_of_template render m view d h⟩

/-- Witness for C3: on a concrete string-body mail the body is returned
unchanged, and on a concrete template mail a throwing renderer's error
propagates. -/
theorem generateBodyString_spec_witness :
    BaseMailAdapter.generateBodyString renderOk mailString = .ok "Hello" ∧
    BaseMailAdapter.generateBodyString renderBoom mailTemplate =
      .error "boom" :=
  ⟨(generateBodyString_spec renderOk mailString).1 "Hello" rfl,
   ((generateBodyString_spec renderBoom mailTemplate).2 "x"
      (some [("a", JValue.num 1)]) rfl).trans rfl⟩

/-- C7: for every mail with a plain string body, the local driver's send
always succeeds and logs, via the logger's info path, a structured record
holding the mail's to, from, subject, attachments and exactly that string
as the resolved body. -/
theorem localDriver_logs_string_body (render : RenderFn) (m : Mail)
    (s : String) (h : m.getBody = .str s) :
    LocalMailDriver.send render m =
      .ok [LogEntry.info "Email"
        { toAddr := m.getTo, fromAddr := m.getFrom, subject := m.getSubject,
          body := s, attachments := m.getAttachments }] := by
  unfold LocalMailDriver.send
  rw [generateBodyString_of_str render m s h]

/-- Witness for C7: the concrete string-body mail is logged with exactly
its body string. -/
theorem localDriver_logs_string_body_witness :
    LocalMailDriver.send renderOk mailString =
      .ok [LogEntry.info "Email"
        { toAddr := .single "a@b.com", fromAddr := "c@d.com", subject := "Hi",
          body := "Hello", attachments := [] }] :=
  localDriver_logs_string_body renderOk mailString "Hello" rfl

/-- C8: a `MailService.send` call leaves the service's own state — its
mail configuration, its adapter registry and its locale-context object —
unchanged: the locale merge assembles a fresh copy instead of writing to
the service, so distinct send calls cannot observe each other through the
service. -/
theorem send_leaves_service_state_unchanged (σ : MailServiceState)
    (render : RenderFn) (now : Nat) (mail : Mail) (driver : String) :
    (MailService.send σ render now mail driver).state = σ := by
  cases ha : getAdapter σ.adapters driver with
  | error e => rw [send_eq_of_getAdapter_error σ render now mail driver e ha]
  | ok a =>
    cases hs : a.send render (MailService.addLocalesData σ now mail) with
    | error e =>
      rw [send_eq_of_adapterSend_error σ render now mail driver a e ha hs]
    | ok logs =>
      rw [send_eq_of_adapterSend_ok σ render now mail driver a logs ha hs]

/-- Counterexample for C2: at the concrete template data
`{locales: 5}` the pair under `locales` is not handed to the adapter
unchanged — the injected locales object replaces it — refuting "contains
every key-value pair of D unchanged" as universally stated. -/
theorem locales_pair_not_preserved_cex :
    mailTemplateLocales.getBody.dataEntry "locales" = some (JValue.num 5) ∧
    ((MailService.send emptyService renderOk 0 mailTemplateLocales
      "local").callerMail.getBody).dataEntry "locales" ≠
        some (JValue.num 5) := by
  refine ⟨rfl, ?_⟩
  intro h
  have h1 : some (JValue.obj [("date", JValue.date 0)]) =
      some (JValue.num 5) := Eq.trans rfl h
  injection h1 with h2
  exact JValue.noConfusion h2

/-- C2 (amended): for a template-shaped body with data object D,
`MailService.send` hands the adapter a mail whose body data carries every
key-value pair of D whose key is not the reserved `locales` unchanged,
plus a `locales` key holding the process-wide locale configuration
together with the freshly computed current date (overwriting any
pre-existing `locales` entry); a plain string body is passed through with
no locale merge. -/
theorem send_merges_locales_into_template_data (σ : MailServiceState)
    (render : RenderFn) (now : Nat) (mail : Mail) (driver : String) :
    (∀ view D, mail.getBody = .template view (some D) →
      ((MailService.send σ render now mail
        driver).callerMail.getBody).viewOf = some view ∧
      ((MailService.send σ render now mail
        driver).callerMail.getBody).dataEntry "locales" =
        some (JValue.obj (spreadSet σ.localesConfig "date"
          (JValue.date now))) ∧
      ∀ k, k ≠ "locales" →
        ((MailService.send σ render now mail
          driver).callerMail.getBody).dataEntry k = getEntry D k) ∧
    (∀ s, mail.getBody = .str s →
      (MailService.send σ render now mail driver).callerMail = mail) := by
  constructor
  · intro view D h
    rw [send_callerMail, addLocalesData_of_template σ now mail view (some D) h,
      getBody_setBody]
    refine ⟨rfl, ?_, ?_⟩
    · rw [dataEntry_template]
      exact getEntry_spreadSet_self _ _ _
    · intro k hk
      rw [dataEntry_template, getEntry_spreadSet_ne _ _ _ _ hk]
      rfl
  · intro s h
    rw [send_callerMail, addLocalesData_of_str σ now mail s h]

/-- Witness for C2 (amended): for the concrete template body
`{view: "x", data: {a: 1}}` the adapter receives data holding both
`a: 1` and the injected `locales` object. -/
theorem send_merges_locales_into_template_data_witness :
    ((MailService.send emptyService renderOk 5 mailTemplate
      "local").callerMail.getBody).dataEntry "a" = some (JValue.num 1) ∧
    ((MailService.send emptyService renderOk 5 mailTemplate
      "local").callerMail.getBody).dataEntry "locales" =
      some (JValue.obj [("date", JValue.date 5)]) := by
  obtain ⟨h1, h2, h3⟩ := (send_merges_locales_into_template_data emptyService
    renderOk 5 mailTemplate "local").1 "x" [("a", JValue.num 1)] rfl
  exact ⟨h3 "a" (by decide), h2⟩

/-- C9: for a template-shaped body with no data property, the merged body
data is exactly the singleton `locales` mapping — the `[]` fallback for
absent data contributes no entries — and `generateBodyString` then
renders the view with exactly that data. -/
theorem absent_template_data_yields_singleton_locales (σ : MailServiceState)
    (render : RenderFn) (now : Nat) (mail : Mail) (view : String)
    (h : mail.getBody = .template view none) :
    (MailService.addLocalesData σ now mail).getBody =
      .template view (some [("locales",
        JValue.obj (spreadSet σ.localesConfig "date" (JValue.date now)))]) ∧
    BaseMailAdapter.generateBodyString render
        (MailService.addLocalesData σ now mail) =
      render view [("locales",
        JValue.obj (spreadSet σ.localesConfig "date" (JValue.date now)))] := by
  have hb : (MailService.addLocalesData σ now mail).getBody =
      .template view (some [("locales",
        JValue.obj (spreadSet σ.localesConfig "date" (JValue.date now)))]) := by
    rw [addLocalesData_of_template σ now mail view none h, getBody_setBody]
    rfl
  refine ⟨hb, ?_⟩
  rw [generateBodyString_of_template render _ view
    (some [("locales",
      JValue.obj (spreadSet σ.localesConfig "date" (JValue.date now)))]) hb]
  rfl

/-- Witness for C9: the concrete data-less template mail ends up with
exactly the one `locales` entry. -/
theorem absent_template_data_yields_singleton_locales_witness :
    (MailService.addLocalesData emptyService 7 mailTemplateNoData).getBody =
      .template "x" (some [("locales",
        JValue.obj [("date", JValue.date 7)])]) :=
  (absent_template_data_yields_singleton_locales emptyService renderOk 7
    mailTemplateNoData "x" rfl).1

/-- C10: `MailService.send` mutates the caller's mail object in place:
after the call — whether the promise resolved or rejected past the merge
step — the caller's mail is the one produced by `addLocalesData`, i.e. a
template body has been replaced via setBody with the locale-merged body,
a pre-existing `locales` entry having been overwritten by the injected
locales, while a plain string body is never mutated. -/
theorem send_mutates_caller_mail (σ : MailServiceState) (render : RenderFn)
    (now : Nat) (mail : Mail) (driver : String) :
    ((MailService.send σ render now mail driver).callerMail =
      MailService.addLocalesData σ now mail) ∧
    (∀ view d, mail.getBody = .template view d →
      (MailService.send σ render now mail driver).callerMail =
        mail.setBody (.template view (some (spreadSet (d.getD []) "locales"
          (JValue.obj (spreadSet σ.localesConfig "date"
            (JValue.date now))))))) ∧
    (∀ view D, mail.getBody = .template view (some D) →
      ((MailService.send σ render now mail
        driver).callerMail.getBody).dataEntry "locales" =
        some (JValue.obj (spreadSet σ.localesConfig "date"
          (JValue.date now)))) ∧
    (∀ s, mail.getBody = .str s →
      (MailService.send σ render now mail driver).callerMail = mail) := by
  refine ⟨send_callerMail σ render now mail driver, ?_, ?_, ?_⟩
  · intro view d h
    rw [send_callerMail, addLocalesData_of_template σ now mail view d h]
  · intro view D h
    rw [send_callerMail, addLocalesData_of_template σ now mail view (some D) h,
      getBody_setBody, dataEntry_template]
    exact getEntry_spreadSet_self _ _ _
  · intro s h
    rw [send_callerMail, addLocalesData_of_str σ now mail s h]

/-- Witness for C10: on a concrete rejected send (nothing registered) the
caller's template mail has still been mutated, its pre-existing `locales`
entry overwritten; and a concrete string-body mail is left untouched. -/
theorem send_mutates_caller_mail_witness :
    (MailService.send emptyService renderOk 3 mailTemplateLocales
      "local").result = .error (.adapterNotFound "local") ∧
    ((MailService.send emptyService renderOk 3 mailTemplateLocales
      "local").callerMail.getBody).dataEntry "locales" =
      some (JValue.obj [("date", JValue.date 3)]) ∧
    (MailService.send emptyService renderOk 3 mailString
      "local").callerMail = mailString := by
  refine ⟨rfl, ?_, ?_⟩
  · exact (send_mutates_caller_mail emptyService renderOk 3
      mailTemplateLocales "local").2.2.1 "x" [("locales", JValue.num 5)] rfl
  · exact (send_mutates_caller_mail emptyService renderOk 3 mailString
      "local").2.2.2 "Hello" rfl

/-- Counterexample for C4: the local driver constructed with options
`{a: 1}` does not return them from getOptions — it returns the empty
object — refuting "for every driver and every options value, getOptions
returns the constructor-time options". -/
theorem local_getOptions_ignores_ctor_options_cex :
    (mkAdapter MailAdapterConstructor.localMailDriver
      [("a", JValue.num 1)]).ctorOptions = [("a", JValue.num 1)] ∧
    (mkAdapter MailAdapterConstructor.localMailDriver
      [("a", JValue.num 1)]).getOptions ≠
      JValue.obj [("a", JValue.num 1)] := by
  refine ⟨rfl, ?_⟩
  intro h
  have h1 : JValue.obj [] = JValue.obj [("a", JValue.num 1)] :=
    Eq.trans rfl h
  injection h1 with h2
  exact List.noConfusion h2

/-- C4 (amended): for every configuration with distinct driver names,
`getDriver(name)` after boot returns exactly the adapter instance
constructed at boot from that entry's constructor and configured options
(`getDriver(unknown)` failing is C5); the local driver's getOptions,
however, returns the empty object regardless of the constructor-time
options, so they are not recoverable through it. -/
theorem getDriver_returns_boot_constructed_adapter (c : IMailConfig)
    (loc : DataObj) (item : MailDriverConfigItem) (hmem : item ∈ c.drivers)
    (hnodup : (c.drivers.map MailDriverConfigItem.name).Nodup) :
    MailService.getDriver
      (MailService.boot
        { mailConfig := c, localesConfig := loc, adapters := [] })
      item.name = .ok (mkAdapter item.driver item.options) ∧
    (mkAdapter item.driver item.options).getOptions = JValue.obj [] := by
  constructor
  · exact getAdapter_bootFold_first c.drivers [] item hmem hnodup
      (by simp [regKeys])
  · unfold AdapterInstance.getOptions mkAdapter
    cases item.driver with
    | localMailDriver => rfl

/-- Witness for C4 (amended): on the concrete one-driver configuration,
getDriver("local") after boot returns the boot-constructed local adapter
and its getOptions is the empty object. -/
theorem getDriver_returns_boot_constructed_adapter_witness :
    MailService.getDriver (MailService.boot emptyService) "local" =
      .ok (mkAdapter .localMailDriver []) ∧
    (mkAdapter MailAdapterConstructor.localMailDriver []).getOptions =
      JValue.obj [] := by
  have h := getDriver_returns_boot_constructed_adapter
    emptyService.mailConfig [] localConfigItem
    (List.mem_cons_self localConfigItem [])
    (List.nodup_singleton "local")
  exact h

/-- C5: lookup of an unregistered name fails: `getDriver(name)` errors
for every name not in the registry, `getDefaultDriver` errors when the
configured default name is unregistered, and `send` before boot (empty
registry) rejects with an unresolved-driver error rather than silently
doing nothing. -/
theorem unregistered_driver_lookup_fails (σ : MailServiceState)
    (render : RenderFn) (now : Nat) (mail : Mail) (name : String) :
    (name ∉ regKeys σ.adapters →
      MailService.getDriver σ name = .error (.adapterNotFound name)) ∧
    (σ.mailConfig.defaultName ∉ regKeys σ.adapters →
      MailService.getDefaultDriver σ =
        .error (.adapterNotFound σ.mailConfig.defaultName)) ∧
    (σ.adapters = [] →
      (MailService.send σ render now mail name).result =
        .error (.adapterNotFound name)) := by
  refine ⟨?_, ?_, ?_⟩
  · intro h
    exact getAdapter_eq_error σ.adapters name h
  · intro h
    exact getAdapter_eq_error σ.adapters _ h
  · intro h
    have h1 : getAdapter σ.adapters name = .error (.adapterNotFound name) :=
      getAdapter_eq_error σ.adapters name (by rw [h]; simp [regKeys])
    rw [send_eq_of_getAdapter_error σ render now mail name _ h1]

/-- Witness for C5: on the concrete not-yet-booted service, an unknown
name fails to resolve and send rejects with an unresolved-driver error. -/
theorem unregistered_driver_lookup_fails_witness :
    MailService.getDriver emptyService "nope" =
      .error (.adapterNotFound "nope") ∧
    (MailService.send emptyService renderOk 0 mailString "nope").result =
      .error (.adapterNotFound "nope") := by
  have h := unregistered_driver_lookup_fails emptyService renderOk 0
    mailString "nope"
  exact ⟨h.1 (by decide), h.2.2 rfl⟩

/-- C6: boot is idempotent with respect to the registry: booting twice
yields exactly the same service state as booting once (a duplicate
registration under an already-registered name is ignored, so the
instances from the first boot survive), and boot preserves uniqueness of
registered names, leaving one adapter instance per configured name. -/
theorem boot_idempotent (σ : MailServiceState) :
    MailService.boot (MailService.boot σ) = MailService.boot σ ∧
    ((regKeys σ.adapters).Nodup →
      (regKeys (MailService.boot σ).adapters).Nodup) := by
  constructor
  · have h : bootFold (bootFold σ.adapters σ.mailConfig.drivers)
        σ.mailConfig.drivers = bootFold σ.adapters σ.mailConfig.drivers :=
      bootFold_noop _ _ (fun item hi => item_mem_keys_bootFold _ _ item hi)
    dsimp only [MailService.boot]
    rw [h]
  · intro hnd
    exact regKeys_bootFold_nodup _ _ hnd

/-- Witness for C6: booting the concrete service twice equals booting it
once, and the booted registry's names are duplicate free. -/
theorem boot_idempotent_witness :
    MailService.boot (MailService.boot emptyService) =
      MailService.boot emptyService ∧
    (regKeys (MailService.boot emptyService).adapters).Nodup := by
  have h := boot_idempotent emptyService
  exact ⟨h.1, h.2 List.nodup_nil⟩

end LarascriptMail
